import Mathlib

/-!
Shallow embedding of `generate_icons.py` (The-Organizer repository).

The script draws a fixed two-character label ("TO") in white on a dark-blue
square canvas, at several sizes, and writes PNG and ICO files.  The drawing
library (PIL) is modelled at its call boundary:

* a `Font` tells, for a given text, the bounding box `textbbox ((0,0), text)`
  returns, and which pixels the text inks when drawn with its origin at
  `(0, 0)`; `textbbox` is translation-equivariant, so drawing at `(x, y)`
  inks exactly the translate of that coverage by `(x, y)`;
* `FontEnv` is the font provider: `truetype name pt` may fail
  (`ImageFont.truetype` raising), `default_font` (`ImageFont.load_default`)
  always succeeds;
* file writes and prints are recorded as an effect trace instead of being
  performed.

Python `//` on ints is floor division, embedded as `Int.fdiv`; Python `/`
would be exact (rational) division.
-/

/-- Bounding box as PIL's `textbbox` returns it: `(left, top, right, bottom)`,
relative to the draw origin. -/
structure BBox where
  left : Int
  top : Int
  right : Int
  bottom : Int

/-- A font as the script observes it through the drawing library:
`bbox t` is `draw.textbbox((0, 0), t, font=font)`, and `coverage t i j`
holds exactly when drawing `t` with origin `(0, 0)` inks pixel `(i, j)`.
PIL's ink of a draw at `(x, y)` is the `(x, y)`-translate of this coverage. -/
structure Font where
  bbox : String → BBox
  coverage : String → Int → Int → Bool

/-- A single `draw.text(pos, text, fill, font)` call. -/
structure TextDraw where
  pos : Int × Int
  text : String
  fill : String
  font : Font

/-- An in-memory bitmap: `Image.new('RGB', (width, height), color=background)`
followed by the recorded text draws. -/
structure Image where
  width : Nat
  height : Nat
  background : String
  draws : List TextDraw

/-- Pixel colour of the bitmap: the last text draw covering `(i, j)` wins,
otherwise the background colour.  (Queries are meant for coordinates inside
the canvas; PIL clips ink outside it.) -/
def Image.pixel (img : Image) (i j : Int) : String :=
  img.draws.foldl
    (fun c d => if d.font.coverage d.text (i - d.pos.1) (j - d.pos.2) then d.fill else c)
    img.background

/-- What a `save` call hands to the image codec. -/
inductive SaveFormat where
  | png : SaveFormat
  | ico : List (Nat × Nat) → SaveFormat

/-- One `img.save(path, ...)` call: the path, the format (with, for ICO, the
`sizes` list the encoder is asked to embed, one `(w, h)` entry per embedded
image), and the image the method was invoked on (the encoder's
primary/reference image). -/
structure SaveEvent where
  path : String
  format : SaveFormat
  image : Image

/-- The `sizes` list handed to the ICO encoder (empty for PNG saves). -/
def SaveFormat.icoSizes : SaveFormat → List (Nat × Nat)
  | SaveFormat.png => []
  | SaveFormat.ico ss => ss

/-- Effect trace of a run: directories created, files saved, lines printed,
each in program order. -/
structure Trace where
  mkdirs : List String
  saves : List SaveEvent
  prints : List String

/-- The font provider: `truetype name pt` models `ImageFont.truetype(name, pt)`
(`none` when it raises), `default_font` models `ImageFont.load_default()`. -/
structure FontEnv where
  truetype : String → Nat → Option Font
  default_font : Font

/-- Lines 23–27 (and identically 55–59): try `ImageFont.truetype("arial.ttf",
size // 2)`, on any failure fall back to `ImageFont.load_default()`. -/
def selectFont (env : FontEnv) (size : Nat) : Font :=
  match env.truetype "arial.ttf" (size / 2) with
  | some f => f
  | none => env.default_font

/-- `os.path.join` on a POSIX filesystem. -/
def os_path_join (a b : String) : String := a ++ "/" ++ b

/-- `create_icon(size, output_path)`, lines 16–45: blank `size × size` RGB
canvas filled `#1e40af`, font selection with fallback, measure the bbox of
"TO", draw it in white at `((size - text_width) // 2,
(size - text_height) // 2)`, save as PNG and print a confirmation.
Returns the image (as the source does) together with the effect trace. -/
def create_icon (env : FontEnv) (size : Nat) (output_path : String) :
    Image × Trace :=
  let img : Image := { width := size, height := size, background := "#1e40af", draws := [] }
  let font := selectFont env size
  let text := "TO"
  let bbox := font.bbox text
  let text_width := bbox.right - bbox.left
  let text_height := bbox.bottom - bbox.top
  let x := Int.fdiv ((size : Int) - text_width) 2
  let y := Int.fdiv ((size : Int) - text_height) 2
  let img := { img with draws := img.draws ++ [⟨(x, y), text, "white", font⟩] }
  (img, { mkdirs := [],
          saves := [⟨output_path, SaveFormat.png, img⟩],
          prints := ["Created: " ++ output_path] })

/-- Body of the `for size in sizes` loop of `create_ico`, lines 51–68: the
per-size bitmap appended to `images`. -/
def render_ico_image (env : FontEnv) (size : Nat) : Image :=
  let img : Image := { width := size, height := size, background := "#1e40af", draws := [] }
  let font := selectFont env size
  let text := "TO"
  let bbox := font.bbox text
  let text_width := bbox.right - bbox.left
  let text_height := bbox.bottom - bbox.top
  let x := Int.fdiv ((size : Int) - text_width) 2
  let y := Int.fdiv ((size : Int) - text_height) 2
  { img with draws := img.draws ++ [⟨(x, y), text, "white", font⟩] }

/-- The `images` list `create_ico` accumulates, lines 49–69: one bitmap per
entry of `sizes`, in order. -/
def create_ico_images (env : FontEnv) (sizes : List Nat) : List Image :=
  sizes.map (render_ico_image env)

/-- `create_ico(sizes, output_path)`, lines 47–73: render one bitmap per size,
then `images[0].save(output_path, format='ICO', sizes=[(s, s) for s in sizes])`
and print a confirmation.  `images[0]` on an empty list raises `IndexError`,
modelled as `Except.error`. -/
def create_ico (env : FontEnv) (sizes : List Nat) (output_path : String) :
    Except String Trace :=
  let images := create_ico_images env sizes
  match images with
  | [] => Except.error "IndexError: list index out of range"
  | img0 :: _ =>
      Except.ok { mkdirs := [],
                  saves := [⟨output_path, SaveFormat.ico (sizes.map fun s => (s, s)), img0⟩],
                  prints := ["Created: " ++ output_path] }

/-- The hard-coded output directory of `main`, line 77:
`os.path.join('src-tauri', 'icons')`. -/
def icons_dir : String := os_path_join "src-tauri" "icons"

/-- `"=" * 60`, lines 81 and 96. -/
def sepLine : String := String.mk (List.replicate 60 '=')

/-- `main()`, lines 75–101: create the icons directory, render the three
single PNGs, the multi-size ICO, and the oversized ICNS-placeholder PNG, and
print the banner and closing notes.  An uncaught exception from a step aborts
the run (`Except.error`). -/
def main_run (env : FontEnv) : Except String Trace :=
  let r1 := create_icon env 32 (os_path_join icons_dir "32x32.png")
  let r2 := create_icon env 128 (os_path_join icons_dir "128x128.png")
  let r3 := create_icon env 256 (os_path_join icons_dir "128x128@2x.png")
  match create_ico env [16, 32, 48, 256] (os_path_join icons_dir "icon.ico") with
  | Except.error e => Except.error e
  | Except.ok t4 =>
      let r5 := create_icon env 512 (os_path_join icons_dir "icon.icns.png")
      Except.ok
        { mkdirs := [icons_dir],
          saves := r1.2.saves ++ r2.2.saves ++ r3.2.saves ++ t4.saves ++ r5.2.saves,
          prints :=
            ["Generating placeholder icons for The Organizer...", sepLine]
            ++ r1.2.prints ++ r2.2.prints ++ r3.2.prints ++ t4.prints ++ r5.2.prints
            ++ [sepLine,
                "\nPlaceholder icons created successfully!",
                "\nNote: For macOS builds, you'll need to convert icon.icns.png to",
                "a proper ICNS file using: npx tauri icon src-tauri/icons/icon.icns.png",
                "\nFor production, replace these with professional icons using:",
                "  npx tauri icon path/to/your-icon.png"] }

/-- Observable outcome of one invocation of the script. -/
structure ScriptResult where
  exitCode : Nat
  mkdirs : List String
  saves : List SaveEvent
  prints : List String

/-- The module level of the script, lines 10–14 and 103–104: if the
Pillow import fails, print the install instruction and `sys.exit(1)` before any
rendering; otherwise run `main()` and fall through with exit code 0 (an
uncaught exception would exit nonzero; `main_run` never raises). -/
def run_script (pillow_available : Bool) (env : FontEnv) : ScriptResult :=
  if pillow_available then
    match main_run env with
    | Except.ok t => ⟨0, t.mkdirs, t.saves, t.prints⟩
    | Except.error _ => ⟨1, [], [], []⟩
  else
    ⟨1, [], [], ["Error: Pillow library required. Install with: pip install Pillow"]⟩

/-! Derived observations used by the centering claims. -/

/-- A font whose label bbox is degenerate at the origin and that inks
nothing; only used as a `getD` default. -/
def dummyFont : Font :=
  { bbox := fun _ => ⟨0, 0, 0, 0⟩, coverage := fun _ _ _ => false }

/-- Default `TextDraw` for list access. -/
def dummyDraw : TextDraw := ⟨(0, 0), "", "", dummyFont⟩

/-- The single text draw `create_icon` performs (the image does not depend on
the output path). -/
def iconLabelDraw (env : FontEnv) (size : Nat) : TextDraw :=
  ((create_icon env size "").1.draws).getD 0 dummyDraw

/-- Ink bounding box of a text draw: by translation-equivariance of
`textbbox`, the `(x, y)`-translate of the font's bbox for that text. -/
def inkBox (d : TextDraw) : BBox :=
  let b := d.font.bbox d.text
  ⟨d.pos.1 + b.left, d.pos.2 + b.top, d.pos.1 + b.right, d.pos.2 + b.bottom⟩

/-- Horizontal offset, in half-pixel units (doubled coordinates), between the
drawn label's midpoint and the canvas midpoint of `create_icon`'s bitmap:
`2 · midpoint_x − size`. -/
def off2x (env : FontEnv) (size : Nat) : Int :=
  (inkBox (iconLabelDraw env size)).left + (inkBox (iconLabelDraw env size)).right - size

/-- Vertical offset, in half-pixel units, between the drawn label's midpoint
and the canvas midpoint of `create_icon`'s bitmap: `2 · midpoint_y − size`. -/
def off2y (env : FontEnv) (size : Nat) : Int :=
  (inkBox (iconLabelDraw env size)).top + (inkBox (iconLabelDraw env size)).bottom - size

/-- The bbox the selected font reports for the label. -/
def selBBox (env : FontEnv) (size : Nat) : BBox := (selectFont env size).bbox "TO"

/-- The integer point size the script passes to `ImageFont.truetype`,
lines 24–25 and 56–57: `size // 2` (floor division). -/
def requestedPointSize (size : Nat) : Nat := size / 2

/-- Modelled from the spec: the point size the spec prescribes, `size / 2`
in exact arithmetic. -/
def specPointSize (size : Nat) : ℚ := (size : ℚ) / 2

/-! Concrete fonts and environments used as witnesses and counterexamples. -/

/-- A font whose label bbox has a vertical offset of 4 pixels (top = 4), as a
scalable font typically reports for ascender space above the cap height. -/
def fontTop4 : Font :=
  { bbox := fun _ => ⟨0, 4, 10, 14⟩, coverage := fun _ _ _ => false }

/-- Environment in which the primary font is available and reports
`fontTop4`'s metrics. -/
def envTop4 : FontEnv :=
  { truetype := fun _ _ => some fontTop4, default_font := fontTop4 }

/-- A font whose label bbox sits exactly at the origin (offsets `(0, 0)`). -/
def fontZero : Font :=
  { bbox := fun _ => ⟨0, 0, 10, 10⟩, coverage := fun _ _ _ => false }

/-- Environment in which the primary font is available with zero offsets. -/
def envZero : FontEnv :=
  { truetype := fun _ _ => some fontZero, default_font := fontZero }

/-- Environment in which the primary font always fails to load. -/
def envNoArial : FontEnv :=
  { truetype := fun _ _ => none, default_font := fontZero }

/-! Claim theorems. -/

/-- Each per-size bitmap of `create_ico` has the requested width. -/
lemma create_ico_images_map_width (env : FontEnv) (sizes : List Nat) :
    (create_ico_images env sizes).map Image.width = sizes := by
  induction sizes with
  | nil => rfl
  | cons a l ih =>
      show (render_ico_image env a).width :: (create_ico_images env l).map Image.width = a :: l
      rw [ih]
      exact rfl

/-- Each per-size bitmap of `create_ico` has the requested height. -/
lemma create_ico_images_map_height (env : FontEnv) (sizes : List Nat) :
    (create_ico_images env sizes).map Image.height = sizes := by
  induction sizes with
  | nil => rfl
  | cons a l ih =>
      show (render_ico_image env a).height :: (create_ico_images env l).map Image.height = a :: l
      rw [ih]
      exact rfl

/-- C2: for every positive size, the bitmap `create_icon` produces and every
per-size bitmap `create_ico` renders is square, with width and height both
equal to the requested size. -/
theorem icons_are_square (env : FontEnv) :
    (∀ size : Nat, ∀ path : String, 0 < size →
      (create_icon env size path).1.width = size
        ∧ (create_icon env size path).1.height = size)
    ∧ (∀ sizes : List Nat, (∀ s ∈ sizes, 0 < s) →
        (create_ico_images env sizes).map Image.width = sizes
          ∧ (create_ico_images env sizes).map Image.height = sizes) := by
  exact ⟨fun size path _ => ⟨rfl, rfl⟩,
    fun sizes _ => ⟨create_ico_images_map_width env sizes, create_ico_images_map_height env sizes⟩⟩

/-- Witness for `icons_are_square` at size 32 and sizes `[16, 32]`. -/
theorem icons_are_square_witness :
    (create_icon envZero 32 "p").1.width = 32
      ∧ (create_ico_images envZero [16, 32]).map Image.width = [16, 32] :=
  ⟨((icons_are_square envZero).1 32 "p" (by decide)).1,
   ((icons_are_square envZero).2 [16, 32] (by decide)).1⟩

/-- C3: each per-size bitmap `create_ico` renders equals — structurally, hence
pixel for pixel — the bitmap `create_icon` produces for the same size under
the same font availability. -/
theorem ico_per_size_matches_single (env : FontEnv) (sizes : List Nat) (path : String) :
    create_ico_images env sizes = sizes.map (fun s => (create_icon env s path).1)
    ∧ ∀ s ∈ sizes, ∀ i j : Int,
        (render_ico_image env s).pixel i j = ((create_icon env s path).1).pixel i j := by
  exact ⟨rfl, fun s _ i j => rfl⟩

/-- Witness for `ico_per_size_matches_single` at sizes `[16]`, pixel (0, 0). -/
theorem ico_per_size_matches_single_witness :
    (render_ico_image envZero 16).pixel 0 0 = ((create_icon envZero 16 "p").1).pixel 0 0 :=
  (ico_per_size_matches_single envZero [16] "p").2 16 (by decide) 0 0

/-- C4: `create_ico [16, 32, 48, 256]` hands the encoder an embedded-image
sizes list of exactly 4 square entries with dimensions 16, 32, 48, 256, and
the first bitmap in input order (the 16-pixel one) is the primary/reference
image the save method is invoked on. -/
theorem ico_container_contents (env : FontEnv) (path : String) :
    create_ico env [16, 32, 48, 256] path
      = Except.ok ⟨[], [⟨path, SaveFormat.ico ([16, 32, 48, 256].map fun s => (s, s)),
                         render_ico_image env 16⟩], ["Created: " ++ path]⟩
    ∧ (SaveFormat.ico ([16, 32, 48, 256].map fun s : Nat => (s, s))).icoSizes
        = [(16, 16), (32, 32), (48, 48), (256, 256)]
    ∧ (SaveFormat.ico ([16, 32, 48, 256].map fun s : Nat => (s, s))).icoSizes.length = 4 :=
  ⟨rfl, rfl, rfl⟩

/-- C6: `create_ico` fails (raises `IndexError` at `images[0]`) whenever the
`sizes` sequence is empty. -/
theorem ico_empty_sizes_fails (env : FontEnv) (path : String) :
    create_ico env [] path = Except.error "IndexError: list index out of range" := rfl

/-- C5: when the primary font fails to load, the operation recovers locally by
selecting the built-in default font, raises nothing (it returns normally, and
`create_ico` returns `ok` for every nonempty `sizes`), and still produces a
bitmap of the requested size with the label drawn at the centering origin
`((size - text_width) // 2, (size - text_height) // 2)`. -/
theorem font_fallback_recovered (env : FontEnv) (size : Nat) (path : String)
    (hfail : env.truetype "arial.ttf" (size / 2) = none) (hpos : 0 < size) :
    selectFont env size = env.default_font
    ∧ (create_icon env size path).1.width = size
    ∧ (create_icon env size path).1.height = size
    ∧ (create_icon env size path).1.draws =
        [⟨(Int.fdiv ((size : Int) -
             ((env.default_font.bbox "TO").right - (env.default_font.bbox "TO").left)) 2,
           Int.fdiv ((size : Int) -
             ((env.default_font.bbox "TO").bottom - (env.default_font.bbox "TO").top)) 2),
          "TO", "white", env.default_font⟩]
    ∧ render_ico_image env size = (create_icon env size path).1
    ∧ ∀ sizes : List Nat, sizes ≠ [] → ∃ t, create_ico env sizes path = Except.ok t := by
  have hsel : selectFont env size = env.default_font := by
    unfold selectFont
    rw [hfail]
  refine ⟨hsel, rfl, rfl, ?_, rfl, ?_⟩
  · have h1 : (create_icon env size path).1.draws
        = [⟨(Int.fdiv ((size : Int) -
               (((selectFont env size).bbox "TO").right - ((selectFont env size).bbox "TO").left)) 2,
             Int.fdiv ((size : Int) -
               (((selectFont env size).bbox "TO").bottom - ((selectFont env size).bbox "TO").top)) 2),
            "TO", "white", selectFont env size⟩] := rfl
    rw [h1, hsel]
  · intro sizes hne
    cases sizes with
    | nil => exact absurd rfl hne
    | cons a l => exact ⟨_, rfl⟩

/-- Witness for `font_fallback_recovered`: an environment where the primary
font never loads, size 32. -/
theorem font_fallback_recovered_witness :
    (create_icon envNoArial 32 "p").1.width = 32 :=
  (font_fallback_recovered envNoArial 32 "p" rfl (by decide)).2.1

/-- C7: with the drawing library unavailable the script prints an actionable
install instruction (containing "pip install Pillow"), performs no rendering,
and exits with status 1; with the library available the run exits with 0. -/
theorem missing_dependency_guard (env : FontEnv) :
    (run_script false env).exitCode = 1
    ∧ (run_script false env).saves = []
    ∧ (run_script false env).mkdirs = []
    ∧ (run_script false env).prints
        = ["Error: Pillow library required. Install with: pip install Pillow"]
    ∧ (∃ pre post,
        "Error: Pillow library required. Install with: pip install Pillow"
          = pre ++ "pip install Pillow" ++ post)
    ∧ (run_script true env).exitCode = 0 :=
  ⟨rfl, rfl, rfl, rfl,
   ⟨"Error: Pillow library required. Install with: ", "", by decide⟩, rfl⟩

/-- The five output paths of the driver are pairwise distinct. -/
lemma main_paths_nodup :
    ([os_path_join icons_dir "32x32.png",
      os_path_join icons_dir "128x128.png",
      os_path_join icons_dir "128x128@2x.png",
      os_path_join icons_dir "icon.ico",
      os_path_join icons_dir "icon.icns.png"] : List String).Nodup := by decide

/-- C8: the full driver sequence writes exactly the 5 output files
`32x32.png`, `128x128.png`, `128x128@2x.png`, `icon.ico`, `icon.icns.png`
(under the icons directory, all distinct) and prints a final success message
containing the phrase "created successfully". -/
theorem end_to_end_outputs (env : FontEnv) :
    ∃ t, main_run env = Except.ok t
    ∧ t.saves.map SaveEvent.path
        = [os_path_join icons_dir "32x32.png",
           os_path_join icons_dir "128x128.png",
           os_path_join icons_dir "128x128@2x.png",
           os_path_join icons_dir "icon.ico",
           os_path_join icons_dir "icon.icns.png"]
    ∧ t.saves.length = 5
    ∧ (t.saves.map SaveEvent.path).Nodup
    ∧ ∃ line pre post, line ∈ t.prints ∧ line = pre ++ "created successfully" ++ post := by
  refine ⟨_, rfl, ?_, ?_, ?_,
    "\nPlaceholder icons created successfully!", "\nPlaceholder icons ", "!", ?_, by decide⟩
  · rfl
  · rfl
  · exact main_paths_nodup
  · simp [main_run, create_icon, create_ico, create_ico_images]

/-- C10: every file the driver writes goes under the hard-coded relative path
`src-tauri/icons`; the directory created and all five output paths are
constants of the program, independent of the environment. -/
theorem hardcoded_output_dir (env : FontEnv) :
    ∃ t, main_run env = Except.ok t
    ∧ t.mkdirs = [icons_dir]
    ∧ icons_dir = "src-tauri/icons"
    ∧ t.saves.map SaveEvent.path
        = [os_path_join icons_dir "32x32.png",
           os_path_join icons_dir "128x128.png",
           os_path_join icons_dir "128x128@2x.png",
           os_path_join icons_dir "icon.ico",
           os_path_join icons_dir "icon.icns.png"] :=
  ⟨_, rfl, rfl, by decide, rfl⟩

/-- C1 counterexample: with the primary font available and reporting a bbox
whose top offset is 4 pixels (size 32, a positive size), the drawn label's
vertical midpoint is 4 pixels below the canvas midpoint — more than one pixel
of rounding error.  The code anchors the draw at the nominal origin without
subtracting the bbox offsets. -/
theorem centering_counterexample :
    (0 : Nat) < 32 ∧ off2y envTop4 32 = 8 ∧ ¬ (off2y envTop4 32).natAbs ≤ 2 := by decide

/-- C1 amended: the draw origin is `((size - labelWidth) // 2,
(size - labelHeight) // 2)` anchored at the nominal (0, 0) reference (the bbox
offsets are not subtracted), so the drawn label's midpoint equals the canvas
midpoint shifted by the bbox offsets `(left, top)`, up to the half-pixel lost
to floor division; in particular it coincides with the canvas midpoint within
one pixel whenever the offsets are zero. -/
theorem centering_amended (env : FontEnv) (size : Nat) :
    (iconLabelDraw env size).pos
      = (Int.fdiv ((size : Int) - ((selBBox env size).right - (selBBox env size).left)) 2,
         Int.fdiv ((size : Int) - ((selBBox env size).bottom - (selBBox env size).top)) 2)
    ∧ off2x env size
        = 2 * (selBBox env size).left
          - ((size : Int) - ((selBBox env size).right - (selBBox env size).left)) % 2
    ∧ off2y env size
        = 2 * (selBBox env size).top
          - ((size : Int) - ((selBBox env size).bottom - (selBBox env size).top)) % 2
    ∧ ((selBBox env size).left = 0 → (off2x env size).natAbs ≤ 1)
    ∧ ((selBBox env size).top = 0 → (off2y env size).natAbs ≤ 1) := by
  have hfd : ∀ a : ℤ, Int.fdiv a 2 = a / 2 := fun a => Int.fdiv_eq_ediv a (by norm_num)
  have hx : off2x env size
      = (Int.fdiv ((size : Int) - ((selBBox env size).right - (selBBox env size).left)) 2
          + (selBBox env size).left
          + (Int.fdiv ((size : Int) - ((selBBox env size).right - (selBBox env size).left)) 2
             + (selBBox env size).right))
        - size := rfl
  have hy : off2y env size
      = (Int.fdiv ((size : Int) - ((selBBox env size).bottom - (selBBox env size).top)) 2
          + (selBBox env size).top
          + (Int.fdiv ((size : Int) - ((selBBox env size).bottom - (selBBox env size).top)) 2
             + (selBBox env size).bottom))
        - size := rfl
  refine ⟨rfl, ?_, ?_, ?_, ?_⟩
  · rw [hx, hfd]
    omega
  · rw [hy, hfd]
    omega
  · intro h0
    rw [hx, hfd, h0]
    omega
  · intro h0
    rw [hy, hfd, h0]
    omega

/-- Witness for the hypotheses of `centering_amended`: with a zero-offset
font at size 32 the label midpoint is within one pixel of the canvas
midpoint. -/
theorem centering_amended_witness : (off2x envZero 32).natAbs ≤ 1 :=
  (centering_amended envZero 32).2.2.2.1 rfl

/-- C9 counterexample: at the odd size 3 the script requests integer point
size `3 // 2 = 1`, which differs from the exact `3 / 2` the spec states. -/
theorem point_size_counterexample :
    requestedPointSize 3 = 1 ∧ (requestedPointSize 3 : ℚ) ≠ specPointSize 3 := by
  constructor
  · rfl
  · norm_num [requestedPointSize, specPointSize]

/-- C9 amended: the rendering operations request the primary font at the
integer point size `size // 2` (floor division), which agrees with the exact
`size / 2` of the spec exactly when `size` is even. -/
theorem point_size_amended (size : Nat) :
    (∀ env : FontEnv, selectFont env size
        = match env.truetype "arial.ttf" (requestedPointSize size) with
          | some f => f
          | none => env.default_font)
    ∧ ((requestedPointSize size : ℚ) = specPointSize size ↔ 2 ∣ size) := by
  refine ⟨fun env => rfl, ?_⟩
  unfold requestedPointSize specPointSize
  constructor
  · intro h
    have h1 : ((size / 2 : Nat) : ℚ) * 2 = (size : ℚ) := by
      rw [h]
      field_simp
    have h2 : (size / 2) * 2 = size := by exact_mod_cast h1
    omega
  · intro hdvd
    have h2 : (size / 2) * 2 = size := by omega
    have h1 : ((size / 2 : Nat) : ℚ) * 2 = (size : ℚ) := by exact_mod_cast h2
    rw [eq_div_iff (by norm_num : (2 : ℚ) ≠ 0)]
    exact h1
